import Mathlib

/-!
Verification development for the BLE fuzzing harness
(`length_unexpected_state.py` and `pairing_max_key_size_test.py`).

Responses are modelled as `Option (List Char)`: `none` is an absent
response, `some text` is the stringified response object.  Operation names,
statuses, indicator messages and hints are all `List Char` values, matching
the stringly-typed Python source.  Substring tests embed the Python `in`
operator on strings.
-/

/-- Character list of a string literal. -/
def strL (s : String) : List Char := s.toList

/-- True when the first list is an initial segment of the second.
Embeds the anchored part of the Python substring test. -/
def leadsWith : List Char → List Char → Bool
  | [], _ => true
  | _ :: _, [] => false
  | c :: cs, d :: ds => c == d && leadsWith cs ds

/-- Substring containment: `containsTok hay needle` embeds Python
`needle in hay` on strings. -/
def containsTok : List Char → List Char → Bool
  | [], needle => needle.isEmpty
  | c :: t, needle => leadsWith needle (c :: t) || containsTok t needle

/-- ASCII lower-casing of one character, as `str.lower` acts on the ASCII
tokens that the classifier matches. -/
def lowAscii (c : Char) : Char :=
  if 'A' ≤ c ∧ c ≤ 'Z' then Char.ofNat (c.toNat + 32) else c

/-- Embeds `response_str.lower()`. -/
def lowerL (l : List Char) : List Char := l.map lowAscii

/-- Python whitespace characters stripped by `str.strip`. -/
def isWS (c : Char) : Bool :=
  c == ' ' || c == '\t' || c == '\n' || c == '\r' || c == '\x0b' || c == '\x0c'

/-- True when `str.strip` leaves nothing, i.e. Python `not s.strip()`. -/
def isBlank (l : List Char) : Bool := l.all isWS

/-- Decimal digit character. -/
def digitChar (n : Nat) : Char := Char.ofNat (48 + n)

/-- Fuel-driven decimal rendering helper for `natChars`. -/
def natCharsAux : Nat → Nat → List Char
  | 0, _ => []
  | fuel + 1, n =>
    if n < 10 then [digitChar n] else natCharsAux fuel (n / 10) ++ [digitChar (n % 10)]

/-- Decimal rendering of a natural number, used to build the f-string
contexts such as `attempt_3` and `recovery_attempt_5`. -/
def natChars (n : Nat) : List Char := natCharsAux (n + 1) n

/-- Hexadecimal digit test for the `[0-9a-fA-F]` character class of the
error-code regular expression. -/
def isHexDigitC (c : Char) : Bool :=
  (('0' ≤ c) && (c ≤ '9')) || (('a' ≤ c) && (c ≤ 'f')) || (('A' ≤ c) && (c ≤ 'F'))

/-- Greedy run of at most `n` hexadecimal digits and the remaining input,
embedding the `{2,4}` quantifier of the error-code regular expression. -/
def takeHexAtMost : Nat → List Char → List Char × List Char
  | 0, l => ([], l)
  | _ + 1, [] => ([], [])
  | n + 1, c :: cs =>
    if isHexDigitC c then
      let p := takeHexAtMost n cs
      (c :: p.1, p.2)
    else ([], c :: cs)

/-- Left-to-right non-overlapping scan for `0x[0-9a-fA-F]{2,4}` matches,
embedding `re.findall` in `_extract_error_codes`.  The fuel argument is the
length of the scanned text; every step consumes at least one character, so
the fuel never runs out on the initial call. -/
def findHexLoop : Nat → List Char → List (List Char)
  | 0, _ => []
  | _, [] => []
  | fuel + 1, c :: cs =>
    if c = '0' then
      match cs with
      | 'x' :: rest =>
        let p := takeHexAtMost 4 rest
        if 2 ≤ p.1.length then ('0' :: 'x' :: p.1) :: findHexLoop fuel p.2
        else findHexLoop fuel cs
      | _ => findHexLoop fuel cs
    else findHexLoop fuel cs

/-- Embeds `_extract_error_codes`: the ordered sequence of hexadecimal
error-code tokens found in the response text.  The Python code additionally
decorates each token with its decimal value and the `HCI_ERROR_CODES`
description; that enrichment is purely informational (no other code reads
it), so an entry is modelled as the matched token itself. -/
def extract_error_codes (text : List Char) : List (List Char) :=
  findHexLoop text.length text

/-- The `CONNECTION_SUCCESS_INDICATORS` table, in source order. -/
def CONNECTION_SUCCESS_INDICATORS : List (List Char) :=
  [strL "LL_SLAVE_FEATURE_REQ", strL "LL_FEATURE_RSP", strL "LL_VERSION_IND",
   strL "ATT_Exchange_MTU_Request", strL "ATT_Exchange_MTU_Response",
   strL "connected", strL "connection", strL "CONNECTED", strL "CONNECTION"]

/-- The `CONNECTION_FAILURE_INDICATORS` table, in source order. -/
def CONNECTION_FAILURE_INDICATORS : List (List Char) :=
  [strL "ERROR", strL "error", strL "FAILED", strL "failed",
   strL "REJECT", strL "reject", strL "TIMEOUT", strL "timeout"]

/-- The `LL_CONNECTION_PDUS` dictionary as an association list in insertion
order (Python dictionaries iterate in insertion order). -/
def LL_CONNECTION_PDUS : List (List Char × List Char) :=
  [(strL "LL_SLAVE_FEATURE_REQ", strL "Slave Feature Request - Connection established"),
   (strL "LL_FEATURE_RSP", strL "Feature Response"),
   (strL "LL_VERSION_IND", strL "Version Indication"),
   (strL "LL_PING_REQ", strL "Ping Request"),
   (strL "LL_PING_RSP", strL "Ping Response"),
   (strL "LL_LENGTH_REQ", strL "Length Request"),
   (strL "LL_LENGTH_RSP", strL "Length Response"),
   (strL "LL_ENC_REQ", strL "Encryption Request"),
   (strL "LL_ENC_RSP", strL "Encryption Response"),
   (strL "LL_START_ENC_REQ", strL "Start Encryption Request"),
   (strL "LL_START_ENC_RSP", strL "Start Encryption Response"),
   (strL "LL_TERMINATE_IND", strL "Connection Termination Indication")]

/-- Modelled from the spec: the external collaborator's explicit error
sentinel, the `constant.ERROR` value imported by both scripts (the
`constant` module is not under src/).  The spec describes it as a fixed
error token returned by `scan()`/`connect()`; it is modelled as the
non-empty token below.  Its Python truthiness (non-emptiness) is what the
scan branch of `_analyze_by_operation` tests. -/
def constantERROR : List Char := strL "error"

/-- Python truthiness of `constant.ERROR`: non-emptiness of the sentinel. -/
def constantERRORTruthy : Bool := !constantERROR.isEmpty

/-- Result of one `_analyze_*` branch of the classifier: the partial update
dictionary merged into the analysis by `analysis.update(...)`.  The length
branch is the only one whose dictionary carries a `vulnerability_hints`
key, hence the `Option` on that field. -/
structure OpResult where
  status : List Char
  success_indicators : List (List Char)
  warning_indicators : List (List Char)
  vuln : Option (List (List Char))

/-- Embeds `_analyze_connection_response`: the ordered fallback scan over
success indicators, failure indicators, known LL PDUs, and the generic
BTLE/BLE framing markers. -/
def analyze_connection_response (text : List Char) : OpResult :=
  match CONNECTION_SUCCESS_INDICATORS.find? (fun i => containsTok text i) with
  | some ind =>
    { status := strL "success",
      success_indicators :=
        (strL "Found connection success indicator: " ++ ind) ::
          (if ind = strL "LL_SLAVE_FEATURE_REQ" then
            [strL "Link Layer Feature Request - Connection established successfully"]
          else []),
      warning_indicators := [], vuln := none }
  | none =>
    match CONNECTION_FAILURE_INDICATORS.find? (fun i => containsTok text i) with
    | some ind =>
      { status := strL "error", success_indicators := [],
        warning_indicators := [strL "Found connection failure indicator: " ++ ind],
        vuln := none }
    | none =>
      match LL_CONNECTION_PDUS.find? (fun p => containsTok text p.1) with
      | some p =>
        { status := strL "success",
          success_indicators := [strL "Link Layer interaction: " ++ p.1 ++ strL " - " ++ p.2],
          warning_indicators :=
            [strL "Connection response format non-standard, but Link Layer interaction exists"],
          vuln := none }
      | none =>
        if containsTok text (strL "BTLE") || containsTok text (strL "BLE") then
          { status := strL "partial_success", success_indicators := [],
            warning_indicators := [strL "Received BLE frame packet, but no clear connection status"],
            vuln := none }
        else
          { status := strL "unknown", success_indicators := [], warning_indicators := [],
            vuln := none }

/-- The zero-valued byte-count test shared by `_analyze_length_response`
and `_detect_vulnerability_hints`. -/
def zeroLenTok (text : List Char) : Bool :=
  containsTok text (strL "max_rx_bytes=0") || containsTok text (strL "max_tx_bytes=0")

/-- Embeds `_analyze_length_response`. -/
def analyze_length_response (text : List Char) : OpResult :=
  if containsTok text (strL "LL_LENGTH_RSP") then
    { status := strL "success",
      success_indicators := [strL "Received length response"],
      warning_indicators :=
        if zeroLenTok text then
          [strL "Length response contains zero value - may not comply with specifications"]
        else [],
      vuln :=
        some (if zeroLenTok text then
          [strL "SweynTooth-like vulnerability: zero length response"]
        else []) }
  else if text = strL "Empty" || isBlank text then
    { status := strL "no_response", success_indicators := [],
      warning_indicators := [strL "No response to length request"],
      vuln := some [strL "Device may not handle abnormal length requests"] }
  else if containsTok text (strL "LL_") then
    { status := strL "partial_success", success_indicators := [],
      warning_indicators := [strL "Received unexpected Link Layer response"],
      vuln := some [] }
  else if containsTok text (strL "ERROR") || containsTok text (strL "error") then
    { status := strL "error", success_indicators := [],
      warning_indicators := [strL "Length request returned error"],
      vuln := some [] }
  else
    { status := strL "unknown", success_indicators := [], warning_indicators := [],
      vuln := some [] }

/-- Embeds `_analyze_by_operation`: dispatch on the exact operation name.
Operations with no branch (for example `post_attack_connection`) fall
through to the initial `unknown` result. -/
def analyze_by_operation (text operationName : List Char) : OpResult :=
  if operationName = strL "connection_request" then
    analyze_connection_response text
  else if operationName = strL "scan_req" then
    (let low := lowerL text
     if containsTok low (strL "scanning") || containsTok low (strL "advertising") then
       { status := strL "success", success_indicators := [strL "Scan operation normal"],
         warning_indicators := [], vuln := none }
     else if containsTok low (strL "error") || constantERRORTruthy then
       { status := strL "error", success_indicators := [],
         warning_indicators := [strL "Scan failed"], vuln := none }
     else
       { status := strL "partial_success", success_indicators := [],
         warning_indicators := [strL "Ambiguous scan response"], vuln := none })
  else if operationName = strL "length_request" then
    analyze_length_response text
  else if operationName = strL "mtu_request" then
    (let low := lowerL text
     if containsTok low (strL "mtu") || containsTok low (strL "exchange") then
       { status := strL "success", success_indicators := [strL "MTU exchange normal"],
         warning_indicators := [], vuln := none }
     else if text = strL "Empty" || isBlank text then
       { status := strL "no_response", success_indicators := [],
         warning_indicators := [strL "No response to MTU request"], vuln := none }
     else
       { status := strL "unknown_response", success_indicators := [],
         warning_indicators := [], vuln := none })
  else if operationName = strL "pairing_request" then
    (let low := lowerL text
     if containsTok low (strL "pairing") || containsTok low (strL "security") then
       { status := strL "success", success_indicators := [strL "Pairing process started"],
         warning_indicators := [], vuln := none }
     else if containsTok low (strL "reject") || containsTok low (strL "invalid") then
       { status := strL "rejected", success_indicators := [],
         warning_indicators := [strL "Pairing request rejected"], vuln := none }
     else
       { status := strL "unknown_response", success_indicators := [],
         warning_indicators := [], vuln := none })
  else
    { status := strL "unknown", success_indicators := [], warning_indicators := [],
      vuln := none }

/-- Embeds `_detect_vulnerability_hints`: the independent hint rules, in
source order. -/
def detect_vulnerability_hints (text operationName : List Char)
    (context : Option (List Char)) : List (List Char) :=
  (if operationName = strL "length_request" then
    (if text = strL "Empty" || isBlank text then
      [strL "Device has no response to abnormal length request - may trigger SweynTooth vulnerability"]
    else []) ++
    (if zeroLenTok text then
      [strL "Device accepts zero value length parameters - potential protocol stack vulnerability"]
    else [])
  else []) ++
  (if containsTok (lowerL operationName) (strL "connection") &&
      containsTok text (strL "LL_TERMINATE_IND") then
    (match context with
     | some c =>
       if !c.isEmpty && containsTok c (strL "attack") then
         [strL "Abnormal connection termination after attack - may trigger denial of service"]
       else []
     | none => [])
  else []) ++
  (if containsTok text (strL "LL_SLAVE_FEATURE_REQ") &&
      containsTok operationName (strL "length_request") then
    [strL "Received feature request after length request - state machine may be abnormal"]
  else [])

/-- Embeds `_determine_final_status`. -/
def determine_final_status (isErr : Bool) (status : List Char)
    (successInds warnInds : List (List Char)) : List Char :=
  if isErr then strL "error"
  else if status = strL "success" || status = strL "partial_success" then status
  else if !successInds.isEmpty then strL "success"
  else if !warnInds.isEmpty then strL "warning"
  else strL "unknown"

/-- The `operation_to_layer` dictionary of `_detect_protocol_layer`. -/
def operationToLayer (operationName : List Char) : Option (List Char) :=
  if operationName = strL "scan_req" then some (strL "HCI")
  else if operationName = strL "connection_request" then some (strL "HCI/L2CAP/LL")
  else if operationName = strL "length_request" then some (strL "LL (Link Layer)")
  else if operationName = strL "mtu_request" then some (strL "ATT/L2CAP")
  else if operationName = strL "pairing_request" then some (strL "SM (Security Manager)")
  else if operationName = strL "feature_request" then some (strL "LL (Link Layer)")
  else if operationName = strL "version_request" then some (strL "LL (Link Layer)")
  else none

/-- Embeds `_detect_protocol_layer`.  A `none` response and an empty string
are both Python-falsy and short-circuit to `unknown`. -/
def detect_protocol_layer (response : Option (List Char))
    (operationName : List Char) : List Char :=
  match response with
  | none => strL "unknown"
  | some text =>
    if text = [] then strL "unknown"
    else if containsTok text (strL "LL_") then strL "LL (Link Layer)"
    else if containsTok text (strL "ATT_") then strL "ATT"
    else if containsTok text (strL "L2CAP") then strL "L2CAP"
    else if containsTok text (strL "HCI") then strL "HCI"
    else
      match operationToLayer operationName with
      | some layer => layer
      | none => strL "unknown"

/-- Embeds `_suggest_action`: the operation-specific overrides followed by
the fixed status-to-action table. -/
def suggest_action (status operationName : List Char) : List Char :=
  if operationName = strL "connection_request" && status = strL "error" then
    strL "Check if device is in advertising state, adjust scan parameters"
  else if containsTok operationName (strL "length_request") && status = strL "no_response" then
    strL "Device may be sensitive to abnormal length requests, try testing with normal values"
  else if status = strL "success" then strL "Proceed to next operation"
  else if status = strL "partial_success" then strL "Observe device behavior, consider retrying"
  else if status = strL "error" then strL "Check device status and connection parameters"
  else if status = strL "no_response" then strL "Wait for device recovery or restart device"
  else if status = strL "unknown" then strL "Further analysis required"
  else strL "No suggestions"

/-- The analysis dictionary produced by `intelligent_analyze_response`.
The `timestamp`, `raw_response`, `response_type` and `response_summary`
entries are pure presentation (wall-clock time and string truncation) and
are not modelled; every field that any decision logic reads is present. -/
structure Analysis where
  operation : List Char
  status : List Char
  protocol_layer : List Char
  is_error : Bool
  error_details : List (List Char)
  success_indicators : List (List Char)
  warning_indicators : List (List Char)
  vulnerability_hints : List (List Char)
  recommended_action : List Char
  context : Option (List Char)

/-- Embeds `intelligent_analyze_response`: the no-response short circuit,
the operation dispatch, unconditional error-code extraction, hint
augmentation, final-status resolution and the recommended action. -/
def intelligent_analyze_response (response : Option (List Char))
    (operationName : List Char) (context : Option (List Char)) : Analysis :=
  match response with
  | none =>
    { operation := operationName, status := strL "no_response",
      protocol_layer := strL "unknown", is_error := true,
      error_details := [strL "No response from device"],
      success_indicators := [], warning_indicators := [], vulnerability_hints := [],
      recommended_action := strL "Check if device is online or restart the device",
      context := context }
  | some text =>
    let opr := analyze_by_operation text operationName
    let codes := extract_error_codes text
    let isErr := !codes.isEmpty
    let branchHints := match opr.vuln with | some v => v | none => []
    let hints := branchHints ++ detect_vulnerability_hints text operationName context
    let st :=
      if opr.status = [] ∨ opr.status = strL "unknown" then
        determine_final_status isErr opr.status opr.success_indicators opr.warning_indicators
      else opr.status
    { operation := operationName, status := st,
      protocol_layer := detect_protocol_layer (some text) operationName,
      is_error := isErr, error_details := codes,
      success_indicators := opr.success_indicators,
      warning_indicators := opr.warning_indicators,
      vulnerability_hints := hints,
      recommended_action := suggest_action st operationName,
      context := context }

/-- Embeds the `status_codes` table returned by `print_analysis` for
automated judgment: severity 0 for success up to 5 for unknown, with 5 as
the default for any other status. -/
def statusCode (status : List Char) : Nat :=
  if status = strL "success" then 0
  else if status = strL "partial_success" then 1
  else if status = strL "warning" then 2
  else if status = strL "error" then 3
  else if status = strL "no_response" then 4
  else if status = strL "unknown" then 5
  else 5

/-- The process-wide `connection_stats` counters of `SmartBLETester`.  The
`avg_time` entry records wall-clock time and is not modelled. -/
structure Stats where
  total_attempts : Nat
  successful : Nat
  failed : Nat

/-- The all-zero counters a fresh `SmartBLETester` session starts with. -/
def zeroStats : Stats := ⟨0, 0, 0⟩

/-- Deterministic stub of the external `FuzzingBLESUL` collaborator, the
seam the spec prescribes for testing the retry and recovery machinery.
Each method either raises (`Except.error`) or returns a response;
`connection_request` and `termination_indication` are indexed by how many
times they have been called so far. -/
structure BLEStub where
  connectionRequest : Nat → Except Unit (Option (List Char))
  lengthRequestFuzzed : Except Unit (Option (List Char))
  terminationIndication : Nat → Except Unit Unit

/-- Severity code of one classified connection attempt, the quantity
`smart_connection_test` compares against 1. -/
def connAttemptCode (response : Option (List Char)) (context : Option (List Char)) : Nat :=
  statusCode (intelligent_analyze_response response (strL "connection_request") context).status

/-- Result of `smart_connection_test`: the success flag, the number of
`connection_request` calls made so far, and the updated counters. -/
structure ConnTestResult where
  success : Bool
  nextCall : Nat
  stats : Stats

/-- One decidable failure test for the `k`-th stubbed connection attempt:
either the call raises, or its classified severity is above 1.  This is
the exact complement of the `status_code <= 1` success test in
`smart_connection_test`. -/
def connAttemptFailsB (stub : BLEStub) (k : Nat) : Bool :=
  match stub.connectionRequest k with
  | .error _ => true
  | .ok resp => decide (1 < connAttemptCode resp none)

/-- Embeds the retry loop of `smart_connection_test`: each attempt sends a
`connection_request`, classifies the response, bumps the counters
(`total_attempts` only for attempts that return, `failed` also for raised
faults), and stops at the first attempt of severity at most 1. -/
def smart_connection_test_from (stub : BLEStub) : Nat → Nat → Stats → ConnTestResult
  | 0, callIdx, stats => ⟨false, callIdx, stats⟩
  | n + 1, callIdx, stats =>
    match stub.connectionRequest callIdx with
    | .error _ =>
      smart_connection_test_from stub n (callIdx + 1)
        { stats with failed := stats.failed + 1 }
    | .ok resp =>
      let code := connAttemptCode resp (some (strL "attempt_" ++ natChars (callIdx + 1)))
      let stats1 := { stats with total_attempts := stats.total_attempts + 1 }
      if code ≤ 1 then
        ⟨true, callIdx + 1, { stats1 with successful := stats1.successful + 1 }⟩
      else
        smart_connection_test_from stub n (callIdx + 1)
          { stats1 with failed := stats1.failed + 1 }

/-- Embeds `smart_connection_test` itself (`max_retries` attempts starting
from the first stubbed call). -/
def smart_connection_test (stub : BLEStub) (maxRetries : Nat) (stats : Stats) :
    ConnTestResult :=
  smart_connection_test_from stub maxRetries 0 stats

/-- The status string recorded for one recovery probe:
`"success" if reconnect_analysis.get("status") == "success" else "failed"`,
where the probe is classified under operation `post_attack_connection`. -/
def probeRecordedStatus (response : Option (List Char)) (context : Option (List Char)) :
    List Char :=
  if (intelligent_analyze_response response (strL "post_attack_connection") context).status
      = strL "success" then
    strL "success"
  else strL "failed"

/-- Embeds the Phase-3 recovery loop of `test_length_vulnerability`.
Arguments: probes left, probe number (1-based, for the
`recovery_attempt_i` context), `connection_request` call counter,
`termination_indication` call counter.  Returns the recorded statuses in
order plus both updated counters.  A raised reconnection is recorded as
`exception`; after a probe recorded `success` the device is disconnected,
and a raised disconnect lands in the same `except` block, appending a
second, `exception`, entry for the same probe. -/
def recoveryLoop (stub : BLEStub) : Nat → Nat → Nat → Nat →
    List (List Char) × Nat × Nat
  | 0, _, callIdx, termIdx => ([], callIdx, termIdx)
  | n + 1, i, callIdx, termIdx =>
    match stub.connectionRequest callIdx with
    | .error _ =>
      let rest := recoveryLoop stub n (i + 1) (callIdx + 1) termIdx
      (strL "exception" :: rest.1, rest.2)
    | .ok resp =>
      let st := probeRecordedStatus resp (some (strL "recovery_attempt_" ++ natChars i))
      if st = strL "success" then
        match stub.terminationIndication termIdx with
        | .error _ =>
          let rest := recoveryLoop stub n (i + 1) (callIdx + 1) (termIdx + 1)
          (st :: strL "exception" :: rest.1, rest.2)
        | .ok _ =>
          let rest := recoveryLoop stub n (i + 1) (callIdx + 1) (termIdx + 1)
          (st :: rest.1, rest.2)
      else
        let rest := recoveryLoop stub n (i + 1) (callIdx + 1) termIdx
        (st :: rest.1, rest.2)

/-- Number of recovery entries whose recorded status is `success`:
`sum(1 for r in recovery_results if r.get("status") == "success")`. -/
def successCount (recoveryStatuses : List (List Char)) : Nat :=
  (recoveryStatuses.filter (fun r => r = strL "success")).length

/-- Embeds the overall-verdict computation at the end of
`test_length_vulnerability`. -/
def overallResult (recoveryStatuses : List (List Char)) : List Char :=
  if successCount recoveryStatuses = 0 then strL "device_crashed"
  else if successCount recoveryStatuses < recoveryStatuses.length then strL "partial_recovery"
  else strL "full_recovery"

/-- The fields of the `test_length_vulnerability` result dictionary that
the campaign logic produces, together with the bookkeeping needed to state
frame conditions: how many `length_request_fuzzed` and
`connection_request` calls the campaign made, and the final counters. -/
structure CampaignResult where
  overall_result : List Char
  recovery_statuses : List (List Char)
  attack_analysis : Option Analysis
  fuzz_send_calls : Nat
  connection_calls : Nat
  stats : Stats

/-- Embeds `test_length_vulnerability`: Phase 1 establishes a baseline
connection with `smart_connection_test(max_retries=7)` and aborts the
campaign with `failed_pre_connection` when it fails; Phase 2 issues exactly
one fuzzed length request (a raised fault is caught and leaves no
analysis); Phase 3 runs 7 single-shot recovery probes; the verdict is
derived from the recorded probe statuses. -/
def test_length_vulnerability (stub : BLEStub) (maxRxBytes : Nat) (stats0 : Stats) :
    CampaignResult :=
  let pre := smart_connection_test stub 7 stats0
  if pre.success then
    let attackAnalysis :=
      match stub.lengthRequestFuzzed with
      | .error _ => none
      | .ok r =>
        some (intelligent_analyze_response r (strL "length_request")
          (some (strL "attack_max_rx_" ++ natChars maxRxBytes)))
    let rec3 := recoveryLoop stub 7 1 pre.nextCall 0
    { overall_result := overallResult rec3.1, recovery_statuses := rec3.1,
      attack_analysis := attackAnalysis, fuzz_send_calls := 1,
      connection_calls := rec3.2.1, stats := pre.stats }
  else
    { overall_result := strL "failed_pre_connection", recovery_statuses := [],
      attack_analysis := none, fuzz_send_calls := 0,
      connection_calls := pre.nextCall, stats := pre.stats }

/-- Embeds the retry loop shared by `robust_connect` and `robust_scan` in
`pairing_max_key_size_test.py`: the `k`-th attempt invokes the
collaborator, a raised fault or the `constant.ERROR` sentinel counts as a
failed attempt, and the first other result stops the loop. -/
def robustRetryLoop (f : Nat → Except Unit (List Char)) :
    Nat → Nat → Bool × Option (List Char)
  | 0, _ => (false, none)
  | n + 1, attempt =>
    match f attempt with
    | .error _ => robustRetryLoop f n (attempt + 1)
    | .ok r =>
      if r = constantERROR then robustRetryLoop f n (attempt + 1)
      else (true, some r)

/-- Embeds `robust_connect`: up to `maxRetries` attempts of the
collaborator's `connection_request`, returning `(False, None)` on
exhaustion. -/
def robust_connect (f : Nat → Except Unit (List Char)) (maxRetries : Nat) :
    Bool × Option (List Char) :=
  robustRetryLoop f maxRetries 0

/-- Embeds `robust_scan`, whose retry logic is identical to
`robust_connect` with `scan_req` as the single-shot operation. -/
def robust_scan (f : Nat → Except Unit (List Char)) (maxRetries : Nat) :
    Bool × Option (List Char) :=
  robustRetryLoop f maxRetries 0

/-- Helper: the classified status never depends on the context argument
(the context only feeds the vulnerability-hint rules). -/
theorem status_context_irrelevant (r : Option (List Char)) (op : List Char)
    (c c' : Option (List Char)) :
    (intelligent_analyze_response r op c).status
      = (intelligent_analyze_response r op c').status := by
  cases r <;> rfl

/-- Helper: the final status of a textual response, written out as the
final-status resolution step over the operation branch result. -/
theorem intelligent_status_eq (text op : List Char) (ctx : Option (List Char)) :
    (intelligent_analyze_response (some text) op ctx).status =
      (if (analyze_by_operation text op).status = []
          ∨ (analyze_by_operation text op).status = strL "unknown" then
        determine_final_status (!(extract_error_codes text).isEmpty)
          (analyze_by_operation text op).status
          (analyze_by_operation text op).success_indicators
          (analyze_by_operation text op).warning_indicators
      else (analyze_by_operation text op).status) := rfl

/-- Helper: the indicator lists of a classified textual response are the
ones set by the operation branch. -/
theorem intelligent_indicators_eq (text op : List Char) (ctx : Option (List Char)) :
    (intelligent_analyze_response (some text) op ctx).success_indicators
        = (analyze_by_operation text op).success_indicators ∧
    (intelligent_analyze_response (some text) op ctx).warning_indicators
        = (analyze_by_operation text op).warning_indicators := ⟨rfl, rfl⟩

/-- Helper: the error flag of a classified textual response records
whether any hexadecimal error code was extracted. -/
theorem intelligent_is_error_eq (text op : List Char) (ctx : Option (List Char)) :
    (intelligent_analyze_response (some text) op ctx).is_error
        = !(extract_error_codes text).isEmpty := rfl

/-- Helper: the hints of a classified textual response are the branch
hints followed by the hint-engine output. -/
theorem intelligent_hints_eq (text op : List Char) (ctx : Option (List Char)) :
    (intelligent_analyze_response (some text) op ctx).vulnerability_hints
        = (match (analyze_by_operation text op).vuln with | some v => v | none => [])
            ++ detect_vulnerability_hints text op ctx := rfl

/-- The statuses an `_analyze_*` branch can set. -/
def branchStatuses : List (List Char) :=
  [strL "unknown", strL "success", strL "error", strL "partial_success",
   strL "no_response", strL "unknown_response", strL "rejected"]

/-- Helper: every operation branch produces a status from the enumerated
set. -/
theorem analyze_by_operation_status_mem (text op : List Char) :
    (analyze_by_operation text op).status ∈ branchStatuses := by
  unfold analyze_by_operation analyze_connection_response analyze_length_response
  simp only []
  repeat' split
  all_goals simp only []
  all_goals decide

/-- Helper: no operation branch leaves the status Python-falsy. -/
theorem analyze_by_operation_status_ne_nil (text op : List Char) :
    (analyze_by_operation text op).status ≠ [] := by
  have h := analyze_by_operation_status_mem text op
  simp only [branchStatuses, List.mem_cons, List.not_mem_nil, or_false] at h
  rcases h with h | h | h | h | h | h | h <;> rw [h] <;> decide

/-- Helper: severity at most 1 characterises exactly the success and
partial-success statuses. -/
theorem statusCode_le_one_iff (st : List Char) :
    statusCode st ≤ 1 ↔ (st = strL "success" ∨ st = strL "partial_success") := by
  unfold statusCode
  split_ifs with h1 h2 h3 h4 h5 h6 <;> simp_all

/-- C2: a response with no text classifies as `no_response` with
`is_error = true`, a fixed error detail and a fixed recommended action,
independent of the operation; the early return leaves every indicator and
hint list empty. -/
theorem no_response_short_circuit (op : List Char) (ctx : Option (List Char)) :
    (intelligent_analyze_response none op ctx).status = strL "no_response" ∧
    (intelligent_analyze_response none op ctx).is_error = true ∧
    (intelligent_analyze_response none op ctx).error_details
        = [strL "No response from device"] ∧
    (intelligent_analyze_response none op ctx).recommended_action
        = strL "Check if device is online or restart the device" ∧
    (intelligent_analyze_response none op ctx).success_indicators = [] ∧
    (intelligent_analyze_response none op ctx).vulnerability_hints = [] :=
  ⟨rfl, rfl, rfl, rfl, rfl, rfl⟩

/-- C4: for a recovery campaign with 7 recorded probe outcomes, the
verdict is the exact threshold function of the number of probes recorded
`success`. -/
theorem recovery_verdict_thresholds (rs : List (List Char)) (h7 : rs.length = 7) :
    (successCount rs = 0 → overallResult rs = strL "device_crashed") ∧
    (0 < successCount rs → successCount rs < 7 →
      overallResult rs = strL "partial_recovery") ∧
    (successCount rs = 7 → overallResult rs = strL "full_recovery") := by
  unfold overallResult
  refine ⟨fun h0 => by rw [if_pos h0], fun h1 h2 => ?_, fun h => ?_⟩
  · rw [if_neg (by omega), if_pos (by omega)]
  · rw [if_neg (by omega), if_neg (by omega)]

/-- Witness for C4 at the three probe counts named by the spec. -/
theorem recovery_verdict_thresholds_witness :
    overallResult (List.replicate 7 (strL "failed")) = strL "device_crashed" ∧
    overallResult (List.replicate 3 (strL "success") ++ List.replicate 4 (strL "failed"))
        = strL "partial_recovery" ∧
    overallResult (List.replicate 7 (strL "success")) = strL "full_recovery" :=
  ⟨(recovery_verdict_thresholds _ (by decide)).1 (by decide),
   (recovery_verdict_thresholds _ (by decide)).2.1 (by decide) (by decide),
   (recovery_verdict_thresholds _ (by decide)).2.2 (by decide)⟩

/-- C3 counterexample: a pairing response containing both a reject token
and a hexadecimal error code keeps the branch status `rejected`, which is
neither `error` nor `success` nor `partial_success` — the extracted error
code does not force `error`. -/
theorem status_preserved_despite_error_cex :
    (intelligent_analyze_response (some (strL "reject 0x05"))
        (strL "pairing_request") none).is_error = true ∧
    (intelligent_analyze_response (some (strL "reject 0x05"))
        (strL "pairing_request") none).status = strL "rejected" ∧
    (intelligent_analyze_response (some (strL "reject 0x05"))
        (strL "pairing_request") none).status ≠ strL "error" ∧
    (intelligent_analyze_response (some (strL "reject 0x05"))
        (strL "pairing_request") none).status ≠ strL "success" ∧
    (intelligent_analyze_response (some (strL "reject 0x05"))
        (strL "pairing_request") none).status ≠ strL "partial_success" := by
  decide

/-- C3 as amended: when an error code was extracted, the final status is
forced to `error` exactly when the operation branch left the status
`unknown`; any explicit branch status (success, partial_success, but also
rejected, unknown_response, no_response or error) is preserved unchanged. -/
theorem error_code_status_resolution (text op : List Char) (ctx : Option (List Char))
    (h : (intelligent_analyze_response (some text) op ctx).is_error = true) :
    ((analyze_by_operation text op).status = strL "unknown" →
      (intelligent_analyze_response (some text) op ctx).status = strL "error") ∧
    ((analyze_by_operation text op).status ≠ strL "unknown" →
      (intelligent_analyze_response (some text) op ctx).status
        = (analyze_by_operation text op).status) := by
  rw [intelligent_is_error_eq] at h
  constructor
  · intro hu
    rw [intelligent_status_eq, if_pos (Or.inr hu)]
    unfold determine_final_status
    rw [if_pos h]
  · intro hu
    rw [intelligent_status_eq, if_neg]
    push_neg
    exact ⟨analyze_by_operation_status_ne_nil text op, hu⟩

/-- Witness for C3 as amended: a bare hexadecimal error code under a
connection attempt leaves the branch status `unknown`, so the final status
is forced to `error`. -/
theorem error_code_status_resolution_witness :
    (intelligent_analyze_response (some (strL "0x05"))
        (strL "connection_request") none).is_error = true ∧
    (intelligent_analyze_response (some (strL "0x05"))
        (strL "connection_request") none).status = strL "error" :=
  ⟨by decide, (error_code_status_resolution _ _ _ (by decide)).1 (by decide)⟩

/-- The eight status values the classifier can produce. -/
def statusEight : List (List Char) :=
  [strL "success", strL "partial_success", strL "warning", strL "error",
   strL "no_response", strL "unknown", strL "unknown_response", strL "rejected"]

/-- Helper: the final-status resolution only produces statuses from the
eight-value set. -/
theorem determine_final_status_mem (isErr : Bool) (st : List Char)
    (si wi : List (List Char)) :
    determine_final_status isErr st si wi ∈ statusEight := by
  unfold determine_final_status
  split_ifs with h1 h2 h3 h4
  · decide
  · rcases (by simpa using h2 : st = strL "success" ∨ st = strL "partial_success") with h | h <;>
      rw [h] <;> decide
  · decide
  · decide
  · decide

/-- C7 counterexample: a non-matching MTU-exchange response is classified
`unknown_response`, a status outside the documented six-value set. -/
theorem status_outside_six_cex :
    (intelligent_analyze_response (some (strL "abc"))
        (strL "mtu_request") none).status = strL "unknown_response" ∧
    (intelligent_analyze_response (some (strL "abc"))
        (strL "mtu_request") none).status ∉
      [strL "success", strL "partial_success", strL "warning", strL "error",
       strL "no_response", strL "unknown"] := by
  decide

/-- C7 as amended: every classified response has one of exactly eight
status values — the six documented ones plus `unknown_response` and
`rejected` from the MTU and pairing branches — and the automation severity
codes map the six documented statuses to 0..5 and the two extra statuses
to the default severity 5. -/
theorem status_value_range (response : Option (List Char)) (op : List Char)
    (ctx : Option (List Char)) :
    (intelligent_analyze_response response op ctx).status ∈ statusEight ∧
    statusCode (strL "success") = 0 ∧ statusCode (strL "partial_success") = 1 ∧
    statusCode (strL "warning") = 2 ∧ statusCode (strL "error") = 3 ∧
    statusCode (strL "no_response") = 4 ∧ statusCode (strL "unknown") = 5 ∧
    statusCode (strL "unknown_response") = 5 ∧ statusCode (strL "rejected") = 5 := by
  refine ⟨?_, by decide, by decide, by decide, by decide, by decide, by decide,
    by decide, by decide⟩
  cases response with
  | none =>
    show strL "no_response" ∈ statusEight
    decide
  | some text =>
    rw [intelligent_status_eq]
    split
    · exact determine_final_status_mem _ _ _ _
    · have h := analyze_by_operation_status_mem text op
      simp only [branchStatuses, List.mem_cons, List.not_mem_nil, or_false] at h
      rcases h with h | h | h | h | h | h | h <;> rw [h] <;> decide

/-- C1: a connection-attempt response containing any connection-success
indicator and no explicit failure token classifies `success`; when the
feature-request token is present it is the first (highest-priority) match
and the special success note is appended. -/
theorem connection_success_priority (text : List Char) (ctx : Option (List Char))
    (hs : ∃ ind ∈ CONNECTION_SUCCESS_INDICATORS, containsTok text ind = true)
    (_hf : ∀ f ∈ CONNECTION_FAILURE_INDICATORS, containsTok text f = false) :
    (intelligent_analyze_response (some text) (strL "connection_request") ctx).status
        = strL "success" ∧
    (containsTok text (strL "LL_SLAVE_FEATURE_REQ") = true →
      strL "Link Layer Feature Request - Connection established successfully" ∈
        (intelligent_analyze_response (some text)
          (strL "connection_request") ctx).success_indicators) := by
  have hb : analyze_by_operation text (strL "connection_request")
      = analyze_connection_response text := rfl
  obtain ⟨ind, hfind⟩ : ∃ ind,
      CONNECTION_SUCCESS_INDICATORS.find? (fun i => containsTok text i) = some ind := by
    cases hc : CONNECTION_SUCCESS_INDICATORS.find? (fun i => containsTok text i) with
    | some ind => exact ⟨ind, rfl⟩
    | none =>
      rw [List.find?_eq_none] at hc
      obtain ⟨i, hi, hci⟩ := hs
      exact absurd hci (by simpa using hc i hi)
  constructor
  · rw [intelligent_status_eq, hb]
    simp only [analyze_connection_response, hfind]
    rw [if_neg (by decide)]
  · intro hreq
    have hfind' : CONNECTION_SUCCESS_INDICATORS.find? (fun i => containsTok text i)
        = some (strL "LL_SLAVE_FEATURE_REQ") := by
      unfold CONNECTION_SUCCESS_INDICATORS
      exact List.find?_cons_of_pos _ hreq
    rw [(intelligent_indicators_eq text (strL "connection_request") ctx).1, hb]
    simp only [analyze_connection_response, hfind']
    simp

/-- Witness for C1: a feature-request response with no failure token. -/
theorem connection_success_priority_witness :
    (intelligent_analyze_response (some (strL "recv LL_SLAVE_FEATURE_REQ"))
        (strL "connection_request") none).status = strL "success" ∧
    strL "Link Layer Feature Request - Connection established successfully" ∈
      (intelligent_analyze_response (some (strL "recv LL_SLAVE_FEATURE_REQ"))
        (strL "connection_request") none).success_indicators := by
  have h := connection_success_priority (strL "recv LL_SLAVE_FEATURE_REQ") none
    (by decide) (by decide)
  exact ⟨h.1, h.2 (by decide)⟩

/-- Helper: the retry loop exhausts when every attempt in range raises or
returns the sentinel. -/
theorem robustRetryLoop_exhaust (f : Nat → Except Unit (List Char)) :
    ∀ (n idx : Nat),
      (∀ k, k < n → f (idx + k) = .error () ∨ f (idx + k) = .ok constantERROR) →
      robustRetryLoop f n idx = (false, none) := by
  intro n
  induction n with
  | zero => intro idx _; rfl
  | succ m ih =>
    intro idx h
    have hshift : ∀ k, k < m →
        f (idx + 1 + k) = .error () ∨ f (idx + 1 + k) = .ok constantERROR := by
      intro k hk
      have := h (k + 1) (by omega)
      rwa [show idx + (k + 1) = idx + 1 + k by omega] at this
    have h0 := h 0 (Nat.succ_pos m)
    rw [Nat.add_zero] at h0
    unfold robustRetryLoop
    rcases h0 with h0 | h0 <;> rw [h0] <;> simp only []
    · exact ih (idx + 1) hshift
    · rw [if_true]
      exact ih (idx + 1) hshift

/-- Helper: the retry loop stops with success at the first attempt that
neither raises nor returns the sentinel. -/
theorem robustRetryLoop_first_success (f : Nat → Except Unit (List Char)) :
    ∀ (n idx k : Nat) (r : List Char), k < n →
      (∀ j, j < k → f (idx + j) = .error () ∨ f (idx + j) = .ok constantERROR) →
      f (idx + k) = .ok r → r ≠ constantERROR →
      robustRetryLoop f n idx = (true, some r) := by
  intro n
  induction n with
  | zero => intro idx k r hk _ _ _; omega
  | succ m ih =>
    intro idx k r hk hfail hok hr
    cases k with
    | zero =>
      rw [Nat.add_zero] at hok
      unfold robustRetryLoop
      rw [hok]
      simp only []
      rw [if_neg hr]
    | succ k' =>
      have h0 := hfail 0 (Nat.succ_pos k')
      rw [Nat.add_zero] at h0
      have hfail' : ∀ j, j < k' →
          f (idx + 1 + j) = .error () ∨ f (idx + 1 + j) = .ok constantERROR := by
        intro j hj
        have := hfail (j + 1) (by omega)
        rwa [show idx + (j + 1) = idx + 1 + j by omega] at this
      have hok' : f (idx + 1 + k') = .ok r := by
        rwa [show idx + (k' + 1) = idx + 1 + k' by omega] at hok
      unfold robustRetryLoop
      rcases h0 with h0 | h0 <;> rw [h0] <;> simp only []
      · exact ih (idx + 1) k' r (by omega) hfail' hok' hr
      · rw [if_true]
        exact ih (idx + 1) k' r (by omega) hfail' hok' hr

/-- C8: the retry engine stops and reports success at the first attempt
that neither raises nor returns the collaborator's error sentinel; a
raised fault is treated exactly like a sentinel failure; exhausting all
attempts returns overall failure `(false, none)` instead of propagating
any fault; and `robust_scan` has the identical retry behaviour. -/
theorem retry_first_success_or_exhaust (f : Nat → Except Unit (List Char))
    (maxRetries : Nat) :
    ((∀ k, k < maxRetries → f k = .error () ∨ f k = .ok constantERROR) →
      robust_connect f maxRetries = (false, none)) ∧
    (∀ k r, k < maxRetries →
      (∀ j, j < k → f j = .error () ∨ f j = .ok constantERROR) →
      f k = .ok r → r ≠ constantERROR →
      robust_connect f maxRetries = (true, some r)) ∧
    robust_scan f maxRetries = robust_connect f maxRetries := by
  refine ⟨?_, ?_, rfl⟩
  · intro h
    exact robustRetryLoop_exhaust f maxRetries 0 (fun k hk => by simpa using h k hk)
  · intro k r hk hfail hok hr
    exact robustRetryLoop_first_success f maxRetries 0 k r hk
      (fun j hj => by simpa using hfail j hj) (by simpa using hok) hr

/-- Collaborator stub that raises on the first six attempts and then
returns a non-sentinel response. -/
def stubFailsSixTimes (k : Nat) : Except Unit (List Char) :=
  if k < 6 then .error () else .ok (strL "LL_VERSION_IND")

/-- Witness for C8: six raised faults followed by a success yield
`(true, some response)` on the seventh attempt, and seven sentinel results
yield `(false, none)`. -/
theorem retry_first_success_or_exhaust_witness :
    robust_connect stubFailsSixTimes 7 = (true, some (strL "LL_VERSION_IND")) ∧
    robust_connect (fun _ => .ok constantERROR) 7 = (false, none) := by
  constructor
  · exact (retry_first_success_or_exhaust stubFailsSixTimes 7).2.1 6 (strL "LL_VERSION_IND")
      (by omega) (fun j hj => Or.inl (by simp [stubFailsSixTimes, hj])) rfl (by decide)
  · exact (retry_first_success_or_exhaust (fun _ => .ok constantERROR) 7).1
      (fun k _ => Or.inr rfl)

/-- C6 counterexample: a zero-valued byte-count field without the
`LL_LENGTH_RSP` marker yields a vulnerability hint but status `unknown`
and no warning, not `success`. -/
theorem zero_length_without_marker_cex :
    (intelligent_analyze_response (some (strL "max_rx_bytes=0"))
        (strL "length_request") none).vulnerability_hints ≠ [] ∧
    (intelligent_analyze_response (some (strL "max_rx_bytes=0"))
        (strL "length_request") none).status = strL "unknown" ∧
    (intelligent_analyze_response (some (strL "max_rx_bytes=0"))
        (strL "length_request") none).status ≠ strL "success" ∧
    (intelligent_analyze_response (some (strL "max_rx_bytes=0"))
        (strL "length_request") none).warning_indicators = [] := by
  decide

/-- Helper: without the `LL_LENGTH_RSP` marker, the length branch never
sets status `success`, leaves both indicator lists empty whenever it
leaves the status `unknown`, and never appends the zero-value warning. -/
theorem analyze_length_response_no_marker (text : List Char)
    (hm : containsTok text (strL "LL_LENGTH_RSP") = false) :
    (analyze_length_response text).status ≠ strL "success" ∧
    ((analyze_length_response text).status = strL "unknown" →
      (analyze_length_response text).success_indicators = [] ∧
      (analyze_length_response text).warning_indicators = []) ∧
    strL "Length response contains zero value - may not comply with specifications" ∉
      (analyze_length_response text).warning_indicators := by
  unfold analyze_length_response
  rw [if_neg (by simp [hm])]
  split_ifs with h1 h2 h3 <;>
    refine ⟨by decide, fun h => ?_, by decide⟩ <;>
    first
      | exact absurd h (by decide)
      | exact ⟨rfl, rfl⟩

/-- Helper: without the `LL_LENGTH_RSP` marker, a classified length-fuzz
response can never end with status `success` (the other branches set
`no_response`, `partial_success` or `error`, and the `unknown` fallback
resolves to `error` or `unknown`), and the zero-value warning is never
among its warnings. -/
theorem length_no_marker_not_success (text : List Char) (ctx : Option (List Char))
    (hm : containsTok text (strL "LL_LENGTH_RSP") = false) :
    (intelligent_analyze_response (some text)
        (strL "length_request") ctx).status ≠ strL "success" ∧
    strL "Length response contains zero value - may not comply with specifications" ∉
      (intelligent_analyze_response (some text)
        (strL "length_request") ctx).warning_indicators := by
  have hb : analyze_by_operation text (strL "length_request")
      = analyze_length_response text := rfl
  obtain ⟨hst, hun, hwz⟩ := analyze_length_response_no_marker text hm
  have hne : (analyze_length_response text).status ≠ [] := by
    rw [← hb]
    exact analyze_by_operation_status_ne_nil text (strL "length_request")
  have hdet : ∀ b : Bool, determine_final_status b (strL "unknown") [] [] ≠ strL "success" := by
    intro b
    cases b <;> decide
  constructor
  · rw [intelligent_status_eq, hb]
    split
    · next hcond =>
      rcases hcond with hnil | hu
      · exact absurd hnil hne
      · obtain ⟨hsi, hwi⟩ := hun hu
        rw [hu, hsi, hwi]
        exact hdet _
    · exact hst
  · rw [(intelligent_indicators_eq text (strL "length_request") ctx).2, hb]
    exact hwz

/-- C6 as amended: a length-fuzz response with a zero-valued byte-count
field always yields a non-empty `vulnerability_hints` list; the status is
`success` with the zero-value warning appended exactly when the response
also carries the `LL_LENGTH_RSP` marker. -/
theorem zero_length_hint_and_success (text : List Char) (ctx : Option (List Char))
    (hz : zeroLenTok text = true) :
    (intelligent_analyze_response (some text)
        (strL "length_request") ctx).vulnerability_hints ≠ [] ∧
    (containsTok text (strL "LL_LENGTH_RSP") = true ↔
      (intelligent_analyze_response (some text)
        (strL "length_request") ctx).status = strL "success" ∧
      strL "Length response contains zero value - may not comply with specifications" ∈
        (intelligent_analyze_response (some text)
          (strL "length_request") ctx).warning_indicators) := by
  have hb : analyze_by_operation text (strL "length_request")
      = analyze_length_response text := rfl
  constructor
  · have hmem :
        strL "Device accepts zero value length parameters - potential protocol stack vulnerability"
          ∈ detect_vulnerability_hints text (strL "length_request") ctx := by
      unfold detect_vulnerability_hints
      rw [if_pos rfl, if_pos hz]
      simp
    rw [intelligent_hints_eq]
    intro hnil
    rw [List.append_eq_nil] at hnil
    rw [hnil.2] at hmem
    exact absurd hmem (List.not_mem_nil _)
  · constructor
    · intro hm
      constructor
      · rw [intelligent_status_eq, hb]
        unfold analyze_length_response
        rw [if_pos hm]
        simp only []
        rw [if_neg (by decide)]
      · rw [(intelligent_indicators_eq text (strL "length_request") ctx).2, hb]
        unfold analyze_length_response
        rw [if_pos hm]
        simp only []
        rw [if_pos hz]
        simp
    · rintro ⟨hsucc, _⟩
      by_contra hmk
      exact (length_no_marker_not_success text ctx (by simpa using hmk)).1 hsucc

/-- Witness for C6 as amended: a length response carrying both the marker
and a zero receive byte count. -/
theorem zero_length_hint_and_success_witness :
    (intelligent_analyze_response (some (strL "LL_LENGTH_RSP max_rx_bytes=0"))
        (strL "length_request") none).vulnerability_hints ≠ [] ∧
    (intelligent_analyze_response (some (strL "LL_LENGTH_RSP max_rx_bytes=0"))
        (strL "length_request") none).status = strL "success" ∧
    strL "Length response contains zero value - may not comply with specifications" ∈
      (intelligent_analyze_response (some (strL "LL_LENGTH_RSP max_rx_bytes=0"))
        (strL "length_request") none).warning_indicators := by
  have h := zero_length_hint_and_success (strL "LL_LENGTH_RSP max_rx_bytes=0") none (by decide)
  exact ⟨h.1, (h.2.mp (by decide)).1, (h.2.mp (by decide)).2⟩

/-- Helper: the pre-connect retry loop reports failure when every attempt
in range fails its severity test or raises. -/
theorem smart_connection_test_from_fail (stub : BLEStub) :
    ∀ (n idx : Nat) (s : Stats),
      (∀ k, k < n → connAttemptFailsB stub (idx + k) = true) →
      (smart_connection_test_from stub n idx s).success = false := by
  intro n
  induction n with
  | zero => intro idx s _; rfl
  | succ m ih =>
    intro idx s h
    have hshift : ∀ k, k < m → connAttemptFailsB stub (idx + 1 + k) = true := by
      intro k hk
      have := h (k + 1) (by omega)
      rwa [show idx + (k + 1) = idx + 1 + k by omega] at this
    have h0 := h 0 (Nat.succ_pos m)
    rw [Nat.add_zero] at h0
    unfold smart_connection_test_from
    cases hc : stub.connectionRequest idx with
    | error e =>
      exact ih (idx + 1) _ hshift
    | ok resp =>
      unfold connAttemptFailsB at h0
      rw [hc] at h0
      have hcode : 1 < connAttemptCode resp none := of_decide_eq_true h0
      simp only []
      rw [if_neg]
      · exact ih (idx + 1) _ hshift
      · unfold connAttemptCode
        rw [status_context_irrelevant _ _ _ none]
        unfold connAttemptCode at hcode
        omega

/-- C5: when every one of the 7 pre-connect attempts fails, the campaign
aborts with `failed_pre_connection`, the fuzz-send method receives zero
calls, and no recovery probe is recorded. -/
theorem failed_pre_connection_aborts_campaign (stub : BLEStub) (maxRxBytes : Nat)
    (s0 : Stats) (h : ∀ k, k < 7 → connAttemptFailsB stub k = true) :
    (test_length_vulnerability stub maxRxBytes s0).overall_result
        = strL "failed_pre_connection" ∧
    (test_length_vulnerability stub maxRxBytes s0).fuzz_send_calls = 0 ∧
    (test_length_vulnerability stub maxRxBytes s0).recovery_statuses = [] := by
  have hf : (smart_connection_test stub 7 s0).success = false :=
    smart_connection_test_from_fail stub 7 0 s0 (fun k hk => by simpa using h k hk)
  unfold test_length_vulnerability
  simp only []
  rw [hf]
  exact ⟨rfl, rfl, rfl⟩

/-- Collaborator stub whose connection attempts always return an explicit
error response. -/
def stubConnRefused : BLEStub :=
  ⟨fun _ => .ok (some (strL "error")), .ok none, fun _ => .ok ()⟩

/-- Witness for C5 at a stub that refuses all connection attempts. -/
theorem failed_pre_connection_aborts_campaign_witness :
    (test_length_vulnerability stubConnRefused 0 zeroStats).overall_result
        = strL "failed_pre_connection" ∧
    (test_length_vulnerability stubConnRefused 0 zeroStats).fuzz_send_calls = 0 ∧
    (test_length_vulnerability stubConnRefused 0 zeroStats).recovery_statuses = [] :=
  failed_pre_connection_aborts_campaign stubConnRefused 0 zeroStats (by decide)

/-- Helper: the counters after the pre-connect loop are the starting
counters plus increments that do not depend on the starting counters. -/
theorem smart_connection_test_from_stats (stub : BLEStub) :
    ∀ (n idx : Nat) (s : Stats),
      (smart_connection_test_from stub n idx s).stats.total_attempts
          = s.total_attempts
            + (smart_connection_test_from stub n idx zeroStats).stats.total_attempts ∧
      (smart_connection_test_from stub n idx s).stats.successful
          = s.successful
            + (smart_connection_test_from stub n idx zeroStats).stats.successful ∧
      (smart_connection_test_from stub n idx s).stats.failed
          = s.failed
            + (smart_connection_test_from stub n idx zeroStats).stats.failed := by
  intro n
  induction n with
  | zero => intro idx s; exact ⟨rfl, rfl, rfl⟩
  | succ m ih =>
    intro idx s
    unfold smart_connection_test_from
    cases hc : stub.connectionRequest idx with
    | error e =>
      obtain ⟨t1, s1, f1⟩ := ih (idx + 1) { s with failed := s.failed + 1 }
      obtain ⟨t2, s2, f2⟩ := ih (idx + 1) { zeroStats with failed := zeroStats.failed + 1 }
      simp only [zeroStats] at t1 s1 f1 t2 s2 f2 ⊢
      refine ⟨?_, ?_, ?_⟩ <;> omega
    | ok resp =>
      simp only []
      by_cases hcode :
          connAttemptCode resp (some (strL "attempt_" ++ natChars (idx + 1))) ≤ 1
      · rw [if_pos hcode, if_pos hcode]
        exact ⟨by simp [zeroStats], by simp [zeroStats], by simp [zeroStats]⟩
      · rw [if_neg hcode, if_neg hcode]
        obtain ⟨t1, s1, f1⟩ := ih (idx + 1)
          { total_attempts := s.total_attempts + 1, successful := s.successful,
            failed := s.failed + 1 }
        obtain ⟨t2, s2, f2⟩ := ih (idx + 1)
          { total_attempts := zeroStats.total_attempts + 1, successful := zeroStats.successful,
            failed := zeroStats.failed + 1 }
        simp only [zeroStats] at t1 s1 f1 t2 s2 f2 ⊢
        refine ⟨?_, ?_, ?_⟩ <;> omega

/-- C9 counterexample: a campaign whose baseline connection succeeds on
the first attempt makes 8 `connection_request` calls (1 pre-connect plus 7
recovery probes) but the process-wide counters record only the single
pre-connect attempt — the recovery-probe reconnections do not update
them. -/
def stubConnOnly : BLEStub :=
  ⟨fun _ => .ok (some (strL "connected")), .ok (some (strL "LL_LENGTH_RSP")), fun _ => .ok ()⟩

theorem recovery_probes_skip_stats_cex :
    (test_length_vulnerability stubConnOnly 0 zeroStats).connection_calls = 8 ∧
    (test_length_vulnerability stubConnOnly 0 zeroStats).stats.total_attempts = 1 ∧
    (test_length_vulnerability stubConnOnly 0 zeroStats).stats.total_attempts
        < (test_length_vulnerability stubConnOnly 0 zeroStats).connection_calls := by
  decide

/-- C9 as amended: the campaign's final counters are exactly those
produced by the pre-connect phase (recovery probes never update them), and
they accumulate additively on top of the incoming counters — so across a
sweep of campaigns within one session they are never reset. -/
theorem connection_stats_accumulation (stub : BLEStub) (maxRxBytes : Nat) (s0 : Stats) :
    (test_length_vulnerability stub maxRxBytes s0).stats
        = (smart_connection_test stub 7 s0).stats ∧
    (test_length_vulnerability stub maxRxBytes s0).stats.total_attempts
        = s0.total_attempts
          + (test_length_vulnerability stub maxRxBytes zeroStats).stats.total_attempts ∧
    (test_length_vulnerability stub maxRxBytes s0).stats.successful
        = s0.successful
          + (test_length_vulnerability stub maxRxBytes zeroStats).stats.successful ∧
    (test_length_vulnerability stub maxRxBytes s0).stats.failed
        = s0.failed
          + (test_length_vulnerability stub maxRxBytes zeroStats).stats.failed := by
  have hstats : ∀ s : Stats,
      (test_length_vulnerability stub maxRxBytes s).stats
        = (smart_connection_test stub 7 s).stats := by
    intro s
    unfold test_length_vulnerability
    simp only []
    split <;> rfl
  obtain ⟨ht, hs, hf⟩ := smart_connection_test_from_stats stub 7 0 s0
  exact ⟨hstats s0,
    by rw [hstats s0, hstats zeroStats]; exact ht,
    by rw [hstats s0, hstats zeroStats]; exact hs,
    by rw [hstats s0, hstats zeroStats]; exact hf⟩

/-- C10: the two connection phases use different success criteria — a
pre-connect attempt counts as connected exactly when its severity code is
at most 1 (status success or partial_success), while a recovery probe is
recorded `success` exactly when its classified status is the string
`success`; any other probe status (partial_success included) is recorded
`failed`, and one `failed` entry among 7 rules out `full_recovery`. -/
theorem phase_success_criteria_differ (resp : Option (List Char))
    (c c' : Option (List Char)) :
    (connAttemptCode resp c ≤ 1 ↔
      ((intelligent_analyze_response resp (strL "connection_request") c).status
          = strL "success" ∨
       (intelligent_analyze_response resp (strL "connection_request") c).status
          = strL "partial_success")) ∧
    (probeRecordedStatus resp c' = strL "success" ↔
      (intelligent_analyze_response resp (strL "post_attack_connection") c').status
        = strL "success") ∧
    ((intelligent_analyze_response resp (strL "post_attack_connection") c').status
        ≠ strL "success" →
      probeRecordedStatus resp c' = strL "failed") ∧
    (∀ rs : List (List Char), rs.length = 7 → strL "failed" ∈ rs →
      overallResult rs ≠ strL "full_recovery") := by
  refine ⟨statusCode_le_one_iff _, ?_, ?_, ?_⟩
  · unfold probeRecordedStatus
    split
    · next h => exact ⟨fun _ => h, fun _ => rfl⟩
    · next h => exact ⟨fun habs => absurd habs (by decide), fun hx => absurd hx h⟩
  · intro h
    unfold probeRecordedStatus
    rw [if_neg h]
  · intro rs h7 hmem
    have hlt : successCount rs < rs.length := by
      unfold successCount
      exact List.length_filter_lt_length_iff_exists.mpr ⟨strL "failed", hmem, by decide⟩
    unfold overallResult
    intro heq
    split_ifs at heq with h1
    · exact absurd heq (by decide)
    · exact absurd heq (by decide)

/-- Witness for C10: a bare BTLE framing response is a partial success for
the pre-connect criterion yet is recorded `failed` by a recovery probe,
and a single failed probe among 7 rules out full recovery. -/
theorem phase_success_criteria_differ_witness :
    connAttemptCode (some (strL "BTLE frame")) none ≤ 1 ∧
    probeRecordedStatus (some (strL "BTLE frame")) none = strL "failed" ∧
    overallResult (strL "failed" :: List.replicate 6 (strL "success"))
        ≠ strL "full_recovery" := by
  refine ⟨?_, ?_, ?_⟩
  · exact (phase_success_criteria_differ (some (strL "BTLE frame")) none none).1.mpr
      (Or.inr (by decide))
  · exact (phase_success_criteria_differ (some (strL "BTLE frame")) none none).2.2.1
      (by decide)
  · exact (phase_success_criteria_differ (some (strL "BTLE frame")) none none).2.2.2
      _ (by decide) (by decide)
